import Mathlib

/-!
Verification of the C2-server core (ServerInterface / NetworkManager).

The transport, crypto, serialization and JSON layers are external
capabilities in the specification; their outcomes enter the model as
explicit parameters (a Bool for a decrypt validity check, a chunk list
for what each recv call delivers, a function parameter for the
deserializer).  Everything else is translated from the source.
-/

namespace React

/-! # Byte-level framing (NetworkManager) -/

/-- Little-endian encoding of a 32-bit value into four bytes, as the raw
memory of the uint32 size header written by Send. -/
def toLE4 (n : Nat) : List Nat :=
  [n % 256, n / 256 % 256, n / 65536 % 256, n / 16777216 % 256]

/-- Value of a four-byte little-endian buffer, as read back from the raw
memory of the uint32 size header. -/
def fromLE4 (bs : List Nat) : Nat :=
  match bs with
  | [b0, b1, b2, b3] => b0 + 256 * b1 + 65536 * b2 + 16777216 * b3
  | _ => 0

/-- The uint32 length header is zero-initialized before recv writes into
it, so a short read leaves the trailing bytes zero. -/
def padTo4 (t : List Nat) : List Nat :=
  t ++ List.replicate (4 - t.length) 0

/-- One recv call on a TCP stream. The stream is modelled as the list of
chunks the kernel delivers, one chunk per call; recv returns at most the
requested count, leaving the remainder of the chunk queued. A request
of zero bytes returns zero immediately; an empty delivery models recv
returning 0 or SOCKET_ERROR (the code treats both as failure). -/
def recvCall (req : Nat) (chunks : List (List Nat)) :
    List Nat × List (List Nat) :=
  if req = 0 then ([], chunks)
  else
    match chunks with
    | [] => ([], [])
    | c :: rest =>
      let t := c.take req
      let leftover := c.drop req
      (t, if leftover.isEmpty then rest else leftover :: rest)

/-- NetworkManager::ReceiveData, TCP branch: one recv for the 4-byte
size, resize the buffer to that size, then a single recv for the
payload; the call reports success iff that one payload recv returned a
positive count. Bytes the single recv did not deliver stay zero from
the resize. -/
def ReceiveData (chunks : List (List Nat)) :
    Option (List Nat) × List (List Nat) :=
  let r1 := recvCall 4 chunks
  if r1.1.isEmpty then (none, r1.2)
  else
    let dataSize := fromLE4 (padTo4 r1.1)
    let r2 := recvCall dataSize r1.2
    let buf := r2.1 ++ List.replicate (dataSize - r2.1.length) 0
    if r2.1.isEmpty then (none, r2.2) else (some buf, r2.2)

theorem recvCall_length_le (req : Nat) (chunks : List (List Nat)) :
    (recvCall req chunks).1.length ≤ req := by
  unfold recvCall
  split
  · simp
  · cases chunks with
    | nil => simp
    | cons c rest => simp [List.length_take]

/-- Inner loop of NetworkManager::ReceiveTCPLargeData: keep calling recv
for the remaining byte count until the buffer is full or a recv fails. -/
def recvFill (need : Nat) (acc : List Nat) (chunks : List (List Nat)) :
    Option (List Nat) × List (List Nat) :=
  if h : acc.length < need then
    match hr : recvCall (need - acc.length) chunks with
    | ([], ch) => (none, ch)
    | (b :: t, ch) => recvFill need (acc ++ (b :: t)) ch
  else (some acc, chunks)
termination_by need - acc.length
decreasing_by
  have hlen := recvCall_length_le (need - acc.length) chunks
  rw [hr] at hlen
  simp only [List.length_append, List.length_cons] at *
  omega

/-- NetworkManager::ReceiveTCPLargeData: one recv for the 4-byte size
followed by the filling loop. -/
def ReceiveTCPLargeData (chunks : List (List Nat)) :
    Option (List Nat) × List (List Nat) :=
  let r1 := recvCall 4 chunks
  if r1.1.isEmpty then (none, r1.2)
  else recvFill (fromLE4 (padTo4 r1.1)) [] r1.2

/-- NetworkManager::TransmitData, TCP branch, for an already-serialized
byte string on a loopback transport where every Send becomes one
delivered chunk: one Send of the uint32 size (truncated to 32 bits),
one Send of the payload. A zero-byte Send puts nothing on the wire. -/
def sendFramed (b : List Nat) : List (List Nat) :=
  [toLE4 (b.length % 4294967296)] ++ (if b.isEmpty then [] else [b])

theorem fromLE4_toLE4 (n : Nat) (h : n < 4294967296) :
    fromLE4 (toLE4 n) = n := by
  simp only [toLE4, fromLE4]
  omega

/-! # Server data model (ServerInterface, Client, requests) -/

/-- Action codes carried by requests and packets (RemoteAction and the
ClientRequest / ClientMessage action enumerations). -/
inductive Action where
  | kNone
  | kDisconnectClient
  | kConnectClient
  | kRequestPrivateEncryptionKey
  | kRequestPublicEncryptionKey
  | kRequestRansomBTCAddress
  | kValidateRansomPayment
  | kKeepAlive
  | kPingClient
  | kReturnPrivateRSAKey
  | kOpenRemoteProcess
  | kKillClient
  deriving DecidableEq

/-- ClientRequest: the fields the dispatcher consults. -/
structure ClientRequest where
  valid : Bool
  action : Action
  deriving DecidableEq

/-- Packet: action plus payload length, as built by the server. -/
structure Packet where
  action : Action := .kNone
  buffLen : Int := 0
  deriving DecidableEq

/-- ClientResponseCode values used by the server. -/
inductive ResponseCode where
  | kNone
  | kResponseOk
  | kResponseError
  | kTimeout
  deriving DecidableEq

/-- ClientResponse: the default-constructed value models the empty
braces returned on the failure paths. -/
structure ClientResponse where
  responseCode : ResponseCode := .kNone
  deriving DecidableEq

/-- INVALID_SOCKET marker for the socket field. -/
def INVALID_SOCKET : Int := -1

/-- The per-session Client record: the fields the server code reads or
writes. ClientPublicKey is tracked as a populated/absent flag since the
key material itself is an external crypto capability. -/
structure Client where
  clientUID : Int
  socket : Int
  alive : Bool := false
  keepAliveProcess : Bool := false
  keepAliveSuccess : Bool := false
  expectingResponse : Bool := false
  publicKeySet : Bool := false
  machineGUID : String := ""
  desktopName : String := ""
  deriving DecidableEq

/-- The session registry m_ClientList: an association of cuid to Client
(the mutex serializes access, so the model is the sequential map). -/
structure ServerState where
  clientList : List (Int × Client)
  deriving DecidableEq

/-- GetClientPtr / ClientIsInClientList: first entry with the given
cuid, or none. -/
def lookupClient : List (Int × Client) → Int → Option Client
  | [], _ => none
  | (k, c) :: rest, cuid => if k = cuid then some c else lookupClient rest cuid

/-- ServerInterface::GetClientPtr on the registry. -/
def GetClientPtr (st : ServerState) (cuid : Int) : Option Client :=
  lookupClient st.clientList cuid

/-- ServerInterface::AddToClientList: unordered_map::insert, which
leaves an existing entry for the key in place. -/
def AddToClientList (st : ServerState) (c : Client) : ServerState :=
  match GetClientPtr st c.clientUID with
  | some _ => st
  | none => ⟨(c.clientUID, c) :: st.clientList⟩

/-- Replace the registry entry for cuid, leaving other entries alone. -/
def updateEntry (cuid : Int) (c : Client) (p : Int × Client) : Int × Client :=
  if p.1 = cuid then (cuid, c) else p

/-- In-place mutation through a Client pointer obtained from the map:
replace the entry for that cuid. -/
def updateClient (st : ServerState) (cuid : Int) (c : Client) : ServerState :=
  ⟨st.clientList.map (updateEntry cuid c)⟩

/-- m_ClientList.erase(cuid). -/
def eraseClient (st : ServerState) (cuid : Int) : ServerState :=
  ⟨st.clientList.filter (fun p => p.1 ≠ cuid)⟩

/-- The compile-time configuration m_Config: maximum connection count
persisted as max_connections in the server state file. -/
def maxConnections : Nat := 100

/-- Keep-alive timeout from m_Config, in milliseconds. -/
def keepAliveTimeoutMs : Nat := 5000

/-! # Connection lifecycle (ExchangePublicKeys, OnTCPConnection) -/

/-- Outcomes of the four socket operations inside
ServerInterface::ExchangePublicKeys: send the server key length, send
the server key bytes, receive the client key length, receive the client
key bytes. -/
structure ExchangeEnv where
  sendLenOk : Bool
  sendKeyOk : Bool
  recvLenOk : Bool
  recvKeyOk : Bool
  deriving DecidableEq

/-- ServerInterface::ExchangePublicKeys: each failed step returns false
at once; only the path where all four steps succeed stores the peer
public key on the client record. -/
def ExchangePublicKeys (st : ServerState) (cuid : Int) (env : ExchangeEnv) :
    Bool × ServerState :=
  match GetClientPtr st cuid with
  | none => (false, st)
  | some c =>
    if !env.sendLenOk then (false, st)
    else if !env.sendKeyOk then (false, st)
    else if !env.recvLenOk then (false, st)
    else if !env.recvKeyOk then (false, st)
    else (true, updateClient st cuid { c with publicKeySet := true })

/-- ServerInterface::GetClientComputerName: receive, decrypt with the
validity gate, and only then store the name; any failure returns false
with the record untouched. -/
def GetClientComputerName (c : Client) (received goodDecrypt : Bool)
    (toStr : List Nat → String) (decrypted : List Nat) : Bool × Client :=
  if !received then (false, c)
  else if !goodDecrypt then (false, c)
  else (true, { c with desktopName := toStr decrypted })

/-- ServerInterface::GetClientMachineGUID: same shape as the computer
name retrieval, storing the machine GUID. -/
def GetClientMachineGUID (c : Client) (received goodDecrypt : Bool)
    (toStr : List Nat → String) (decrypted : List Nat) : Bool × Client :=
  if !received then (false, c)
  else if !goodDecrypt then (false, c)
  else (true, { c with machineGUID := toStr decrypted })

/-- Result of ServerInterface::OnTCPConnection: the registry afterwards
and which per-session effects happened. The source spawns both threads
and closes nothing on every path. -/
structure ConnResult where
  state : ServerState
  receiveLoopSpawned : Bool
  keepAliveLoopSpawned : Bool
  socketClosed : Bool
  deriving DecidableEq

/-- The GetClientComputerName step of OnTCPConnection applied to the
registry: when the name was resolved and the session exists, store it
through the client pointer; otherwise the registry is untouched. -/
def applyNameRes (st : ServerState) (uid : Int) (nameRes : Option String) :
    ServerState :=
  match nameRes, GetClientPtr st uid with
  | some s, some c =>
    updateClient st uid (GetClientComputerName c true true (fun _ => s) []).2
  | _, _ => st

/-- The GetClientMachineGUID step of OnTCPConnection applied to the
registry. -/
def applyGuidRes (st : ServerState) (uid : Int) (guidRes : Option String) :
    ServerState :=
  match guidRes, GetClientPtr st uid with
  | some s, some c =>
    updateClient st uid (GetClientMachineGUID c true true (fun _ => s) []).2
  | _, _ => st

/-- ServerInterface::OnTCPConnection: create the client record with
alive set, add it to the registry, run the key exchange with its Bool
result discarded, best-effort identity resolution (computer name, then
machine GUID, each an Option String outcome of its encrypted receive),
then unconditionally spawn the receive thread and the keep-alive
thread. -/
def OnTCPConnection (st : ServerState) (connection newUid : Int)
    (env : ExchangeEnv) (nameRes guidRes : Option String) : ConnResult :=
  ⟨applyGuidRes
      (applyNameRes
        ((ExchangePublicKeys
            (AddToClientList st { clientUID := newUid, socket := connection, alive := true })
            newUid env).2)
        newUid nameRes)
      newUid guidRes,
    true, true, false⟩

/-! # Eviction and keep-alive (RemoveClientFromServer,
SendKeepAlivePackets, OnKeepAliveEcho) -/

/-- Modelled from the spec: Client::Disconnect is declared outside the
given sources; per the specification the Disconnected step closes the
session socket. -/
def ClientDisconnect (c : Client) : Client :=
  { c with socket := INVALID_SOCKET }

/-- ServerInterface::RemoveClientFromServer: a no-op on a client already
marked not alive; otherwise clear Alive and call Disconnect. The
registry entry is not erased. -/
def RemoveClientFromServer (c : Client) : Client :=
  if c.alive = false then c
  else ClientDisconnect { c with alive := false }

/-- RemoveClientFromServer applied through the Client pointer held by
the keep-alive loop, i.e. landing on the registry entry. -/
def RemoveClientFromServerOn (st : ServerState) (cuid : Int) : ServerState :=
  match GetClientPtr st cuid with
  | none => st
  | some c => updateClient st cuid (RemoveClientFromServer c)

/-- Registry and loop outcome of one keep-alive iteration. evicted set
means the do-while body hit a break after RemoveClientFromServer. -/
structure KeepAliveResult where
  state : ServerState
  evicted : Bool
  deriving DecidableEq

/-- One iteration of ServerInterface::SendKeepAlivePackets: clear
KeepAliveSuccess, send the encrypted probe under a send timeout
(sendOk), set KeepAliveProcess, poll up to keepAliveTimeoutMs for the
receive loop to mark the echo (echoed), clear KeepAliveProcess, and
evict via RemoveClientFromServer when the probe send failed or success
was never observed. -/
def SendKeepAliveIteration (st : ServerState) (cuid : Int)
    (sendOk echoed : Bool) : KeepAliveResult :=
  match GetClientPtr st cuid with
  | none => ⟨st, false⟩
  | some c =>
    let c0 := { c with keepAliveSuccess := false }
    if !sendOk then ⟨updateClient st cuid (RemoveClientFromServer c0), true⟩
    else
      let c1 := { c0 with keepAliveProcess := true }
      let c2 := if echoed then { c1 with keepAliveSuccess := true, keepAliveProcess := false } else c1
      let c3 := { c2 with keepAliveProcess := false }
      if c3.keepAliveSuccess = false then
        ⟨updateClient st cuid (RemoveClientFromServer c3), true⟩
      else ⟨updateClient st cuid c3, false⟩

/-- ServerInterface::OnKeepAliveEcho: decrypt the received frame; a
failed validity check marks the probe failed without deserializing;
otherwise deserialize and compare the echoed action to kKeepAlive. -/
def OnKeepAliveEcho (st : ServerState) (cuid : Int) (goodDecrypt : Bool)
    (deserialize : List Nat → Packet) (decrypted : List Nat) : ServerState :=
  match GetClientPtr st cuid with
  | none => st
  | some c =>
    if !goodDecrypt then
      updateClient st cuid { c with keepAliveSuccess := false, keepAliveProcess := false }
    else if (deserialize decrypted).action = .kKeepAlive then
      updateClient st cuid { c with keepAliveProcess := false, keepAliveSuccess := true }
    else
      updateClient st cuid { c with keepAliveSuccess := false }

/-! # Receive loop and response waiting -/

/-- What one iteration of the TCP receive loop does with the inbound
frame. -/
inductive LoopStep where
  | skipped
  | continued
  | keepAliveEcho
  | performed (r : ClientRequest)
  deriving DecidableEq

/-- One iteration of ServerInterface::TCPReceiveMessagesFromClient:
skip while a response or probe is outstanding; a failed receive
continues; a probe that became outstanding during the receive routes
the frame to OnKeepAliveEcho; then the decrypt validity gate, and only
a valid decrypt is deserialized and dispatched to PerformRequest. -/
def TCPReceiveIteration (c : Client) (received kaDuringRecv goodDecrypt : Bool)
    (deserialize : List Nat → ClientRequest) (decrypted : List Nat) : LoopStep :=
  if c.expectingResponse || c.keepAliveProcess then .skipped
  else if !received then .continued
  else if kaDuringRecv then .keepAliveEcho
  else if !goodDecrypt then .continued
  else .performed (deserialize decrypted)

/-- ServerInterface::WaitForClientResponse: set ExpectingResponse, do a
time-bounded receive, check the timeout, the receive result, then the
decrypt validity gate; ExpectingResponse is cleared just before the
success return. -/
def WaitForClientResponse (c : Client) (timedOut received goodDecrypt : Bool)
    (deserialize : List Nat → ClientResponse) (decrypted : List Nat) :
    ClientResponse × Client :=
  let c1 := { c with expectingResponse := true }
  if timedOut then ({ responseCode := .kTimeout }, c1)
  else if !received then (⟨.kNone⟩, c1)
  else if !goodDecrypt then (⟨.kNone⟩, c1)
  else (deserialize decrypted, { c1 with expectingResponse := false })

/-! # Protocol dispatcher (PerformRequest) and listeners -/

/-- How control leaves ServerInterface::PerformRequest. ret b is an
executed return statement; fellOff is control reaching the closing
brace of the bool-returning function with no return statement, so the
call's value is undefined; nullDeref is a dereference of the null
TCPClient pointer. -/
inductive PRExit where
  | ret (b : Bool)
  | fellOff
  | nullDeref
  deriving DecidableEq

/-- One reply transmission performed by the dispatcher. -/
structure Transmit where
  encrypted : Bool
  withPeerPublicKey : Bool
  overUDP : Bool
  deriving DecidableEq

/-- Exit, resulting registry, replies sent, and whether SaveServerState
and a socket disconnect happened during one PerformRequest call. -/
structure PRResult where
  exit : PRExit
  state : ServerState
  transmits : List Transmit
  savedState : Bool
  disconnected : Bool
  deriving DecidableEq

/-- ServerInterface::PerformRequest. An unset valid flag returns false;
otherwise TCPClient is looked up only when the request is performed on
the TCP server. kDisconnectClient saves state, erases the registry
entry, then calls Disconnect through TCPClient (null when on UDP or the
cuid is absent). kConnectClient replies with the TCP server details
over UDP. kRequestPrivateEncryptionKey is TCP-only and transmits an
encrypted reply under the peer public key through TCPClient (null
dereference when the session is absent). The public-key, BTC-address
and payment-validation actions only test the connection type and send
nothing, and every switch case and the unmatched-action path fall off
the end of the function. -/
def PerformRequest (st : ServerState) (req : ClientRequest) (onTCP : Bool)
    (cuid : Int) : PRResult :=
  if !req.valid then ⟨.ret false, st, [], false, false⟩
  else
    let TCPClient := if onTCP then GetClientPtr st cuid else none
    match req.action with
    | .kDisconnectClient =>
      let st1 := eraseClient st cuid
      match TCPClient with
      | none => ⟨.nullDeref, st1, [], true, false⟩
      | some _ => ⟨.fellOff, st1, [], true, true⟩
    | .kConnectClient =>
      if onTCP then ⟨.fellOff, st, [], false, false⟩
      else ⟨.fellOff, st, [⟨false, false, true⟩], false, false⟩
    | .kRequestPrivateEncryptionKey =>
      if !onTCP then ⟨.fellOff, st, [], false, false⟩
      else
        match TCPClient with
        | none => ⟨.nullDeref, st, [], false, false⟩
        | some _ => ⟨.fellOff, st, [⟨true, true, false⟩], false, false⟩
    | .kRequestPublicEncryptionKey => ⟨.fellOff, st, [], false, false⟩
    | .kRequestRansomBTCAddress => ⟨.fellOff, st, [], false, false⟩
    | .kValidateRansomPayment => ⟨.fellOff, st, [], false, false⟩
    | _ => ⟨.fellOff, st, [], false, false⟩

/-- One iteration of ServerInterface::ListenForUDPMessages: a failed
receive loops again; a received request is dispatched through
PerformRequest on the UDP server instance with cuid fixed at -1. -/
def ListenForUDPIteration (st : ServerState) (received : Bool)
    (req : ClientRequest) : Option PRResult :=
  if received then some (PerformRequest st req false (-1)) else none

/-! # Accept loop (AcceptTCPConnections) -/

/-- Loop guard of ServerInterface::AcceptTCPConnections: the source
compares the registry size against the literal 200, not against the
configured maxConnections. -/
def acceptLoopAdmits (registrySize : Nat) (serverAlive : Bool) : Bool :=
  decide (registrySize ≤ 200) && serverAlive

/-- One iteration of the accept loop: when the guard admits, accept
(acceptOk models AcceptOnSocket not returning INVALID_SOCKET) and hand
the socket to OnTCPConnection. -/
def AcceptIteration (st : ServerState) (serverAlive acceptOk : Bool)
    (connection newUid : Int) (env : ExchangeEnv)
    (nameRes guidRes : Option String) : ServerState :=
  if acceptLoopAdmits st.clientList.length serverAlive then
    if acceptOk then (OnTCPConnection st connection newUid env nameRes guidRes).state
    else st
  else st

/-! # Registry lemmas -/

theorem lookupClient_map_update (l : List (Int × Client)) (cuid : Int) (c : Client) :
    lookupClient (l.map (updateEntry cuid c)) cuid =
      (lookupClient l cuid).map fun _ => c := by
  induction l with
  | nil => rfl
  | cons p rest ih =>
    obtain ⟨k, q⟩ := p
    simp only [List.map_cons]
    rw [show updateEntry cuid c (k, q) = if k = cuid then (cuid, c) else (k, q) from rfl]
    by_cases h : k = cuid
    · subst h
      rw [if_pos rfl]
      simp [lookupClient]
    · rw [if_neg h]
      simp [lookupClient, h, ih]

theorem GetClientPtr_update (st : ServerState) (cuid : Int) (c : Client) :
    GetClientPtr (updateClient st cuid c) cuid = (GetClientPtr st cuid).map fun _ => c :=
  lookupClient_map_update st.clientList cuid c

theorem updateClient_length (st : ServerState) (cuid : Int) (c : Client) :
    (updateClient st cuid c).clientList.length = st.clientList.length := by
  simp [updateClient]

theorem AddToClientList_length (st : ServerState) (c : Client) :
    (AddToClientList st c).clientList.length ≤ st.clientList.length + 1 := by
  unfold AddToClientList
  cases h : GetClientPtr st c.clientUID <;> simp

theorem ExchangePublicKeys_state_length (st : ServerState) (cuid : Int)
    (env : ExchangeEnv) :
    (ExchangePublicKeys st cuid env).2.clientList.length = st.clientList.length := by
  unfold ExchangePublicKeys
  cases h : GetClientPtr st cuid
  · simp
  · simp only []
    split_ifs <;> simp [updateClient_length]

theorem RemoveClientFromServer_not_alive (c : Client) :
    (RemoveClientFromServer c).alive = false := by
  by_cases h : c.alive = false <;> simp [RemoveClientFromServer, ClientDisconnect, h]

theorem RemoveClientFromServer_idem (c : Client) :
    RemoveClientFromServer (RemoveClientFromServer c) = RemoveClientFromServer c := by
  by_cases h : c.alive = false <;>
    simp [RemoveClientFromServer, ClientDisconnect, h]

/-! # Claim C2 -/

/-- C2. The claim states the keep-alive monitor removes a failing
session from the registry exactly once and closes its socket. On the
code, a session whose probe send fails or whose probe is never echoed
is marked not alive and its socket is closed, exactly once (eviction of
an already-evicted client is a no-op); but the registry entry is NOT
erased — the cuid still resolves in m_ClientList afterwards. -/
theorem C2_keepalive_eviction (st : ServerState) (cuid : Int) (c : Client)
    (sendOk echoed : Bool)
    (hc : GetClientPtr st cuid = some c) (halive : c.alive = true)
    (hfail : sendOk = false ∨ echoed = false) :
    (SendKeepAliveIteration st cuid sendOk echoed).evicted = true
    ∧ (GetClientPtr (SendKeepAliveIteration st cuid sendOk echoed).state cuid).map
        Client.alive = some false
    ∧ (GetClientPtr (SendKeepAliveIteration st cuid sendOk echoed).state cuid).map
        Client.socket = some INVALID_SOCKET
    ∧ (GetClientPtr (SendKeepAliveIteration st cuid sendOk echoed).state cuid).isSome = true
    ∧ (∀ x : Client, RemoveClientFromServer (RemoveClientFromServer x) =
        RemoveClientFromServer x) := by
  refine ⟨?_, ?_, ?_, ?_, RemoveClientFromServer_idem⟩ <;>
  · unfold SendKeepAliveIteration
    rw [hc]
    rcases hfail with h | h
    · subst h
      simp [RemoveClientFromServer, ClientDisconnect, halive, GetClientPtr_update, hc]
    · subst h
      cases sendOk <;>
        simp [RemoveClientFromServer, ClientDisconnect, halive, GetClientPtr_update, hc]

/-- C2 counterexample to the claim as stated: a live session at cuid 1
whose probe is never echoed is evicted by the keep-alive iteration, yet
its record is still present in the registry afterwards — the session is
not removed from the registry. -/
theorem C2_eviction_registry_cex :
    (SendKeepAliveIteration ⟨[(1, { clientUID := 1, socket := 5, alive := true })]⟩
        1 true false).evicted = true
    ∧ (GetClientPtr (SendKeepAliveIteration
        ⟨[(1, { clientUID := 1, socket := 5, alive := true })]⟩ 1 true false).state
        1).isSome = true := by
  constructor <;> decide

/-- C2 witness: the eviction theorem applied to that one-session
registry. -/
theorem C2_keepalive_eviction_witness :
    (SendKeepAliveIteration ⟨[(1, { clientUID := 1, socket := 5, alive := true })]⟩
        1 true false).evicted = true
    ∧ (GetClientPtr (SendKeepAliveIteration
        ⟨[(1, { clientUID := 1, socket := 5, alive := true })]⟩ 1 true false).state
        1).map Client.alive = some false
    ∧ (GetClientPtr (SendKeepAliveIteration
        ⟨[(1, { clientUID := 1, socket := 5, alive := true })]⟩ 1 true false).state
        1).map Client.socket = some INVALID_SOCKET
    ∧ (GetClientPtr (SendKeepAliveIteration
        ⟨[(1, { clientUID := 1, socket := 5, alive := true })]⟩ 1 true false).state
        1).isSome = true
    ∧ (∀ x : Client, RemoveClientFromServer (RemoveClientFromServer x) =
        RemoveClientFromServer x) :=
  C2_keepalive_eviction ⟨[(1, { clientUID := 1, socket := 5, alive := true })]⟩
    1 { clientUID := 1, socket := 5, alive := true } true false rfl rfl (Or.inr rfl)

/-! # Claim C1 -/

theorem ExchangePublicKeys_fail (st : ServerState) (cuid : Int) (c : Client)
    (env : ExchangeEnv) (hc : GetClientPtr st cuid = some c)
    (hfail : env.sendLenOk = false ∨ env.sendKeyOk = false
      ∨ env.recvLenOk = false ∨ env.recvKeyOk = false) :
    ExchangePublicKeys st cuid env = (false, st) := by
  unfold ExchangePublicKeys
  rw [hc]
  rcases hfail with h | h | h | h <;> split_ifs <;> simp_all

theorem AddToClientList_fresh (st : ServerState) (c : Client)
    (hfresh : GetClientPtr st c.clientUID = none) :
    AddToClientList st c = ⟨(c.clientUID, c) :: st.clientList⟩ := by
  unfold AddToClientList
  rw [hfresh]

theorem applyNameRes_lookup (st : ServerState) (uid : Int) (nameRes : Option String)
    (c : Client) (hc : GetClientPtr st uid = some c) :
    GetClientPtr (applyNameRes st uid nameRes) uid =
      some (match nameRes with
        | some s => { c with desktopName := s }
        | none => c) := by
  cases nameRes <;>
    simp [applyNameRes, hc, GetClientPtr_update, GetClientComputerName]

theorem applyGuidRes_lookup (st : ServerState) (uid : Int) (guidRes : Option String)
    (c : Client) (hc : GetClientPtr st uid = some c) :
    GetClientPtr (applyGuidRes st uid guidRes) uid =
      some (match guidRes with
        | some s => { c with machineGUID := s }
        | none => c) := by
  cases guidRes <;>
    simp [applyGuidRes, hc, GetClientPtr_update, GetClientMachineGUID]

theorem applyNameRes_length (st : ServerState) (uid : Int) (nameRes : Option String) :
    (applyNameRes st uid nameRes).clientList.length = st.clientList.length := by
  unfold applyNameRes
  split <;> simp [updateClient_length]

theorem applyGuidRes_length (st : ServerState) (uid : Int) (guidRes : Option String) :
    (applyGuidRes st uid guidRes).clientList.length = st.clientList.length := by
  unfold applyGuidRes
  split <;> simp [updateClient_length]

/-- After a failed key exchange, OnTCPConnection still leaves the new
session in the registry: alive, with the accepted socket, with no
public key populated, its identity strings holding whatever identity
resolution produced. -/
theorem OnTCPConnection_fail_lookup (st : ServerState) (conn uid : Int)
    (env : ExchangeEnv) (nameRes guidRes : Option String)
    (hfresh : GetClientPtr st uid = none)
    (hfail : env.sendLenOk = false ∨ env.sendKeyOk = false
      ∨ env.recvLenOk = false ∨ env.recvKeyOk = false) :
    GetClientPtr (OnTCPConnection st conn uid env nameRes guidRes).state uid =
      some { clientUID := uid, socket := conn, alive := true,
             machineGUID := guidRes.getD "", desktopName := nameRes.getD "" } := by
  have h1 := AddToClientList_fresh st { clientUID := uid, socket := conn, alive := true }
    hfresh
  have h2 : GetClientPtr
      (⟨(uid, { clientUID := uid, socket := conn, alive := true }) :: st.clientList⟩ :
        ServerState) uid =
      some { clientUID := uid, socket := conn, alive := true } := by
    simp [GetClientPtr, lookupClient]
  have hE := ExchangePublicKeys_fail
    (⟨(uid, { clientUID := uid, socket := conn, alive := true }) :: st.clientList⟩ :
      ServerState) uid { clientUID := uid, socket := conn, alive := true } env h2 hfail
  simp only [OnTCPConnection, h1, hE]
  rw [applyGuidRes_lookup _ _ guidRes _ (applyNameRes_lookup _ _ nameRes _ h2)]
  cases nameRes <;> cases guidRes <;> simp

/-- C1, amended. When the key exchange with a newly accepted peer fails
at any partial step, ExchangePublicKeys does return failure and the
peer's public key is left unpopulated — but the handshake is not
aborted: OnTCPConnection discards the Bool result, the session remains
in the registry alive with its accepted socket open, no socket close
happens, and the receive loop and keep-alive loop are both spawned for
it. -/
theorem C1_handshake_failure_not_terminal (st : ServerState) (conn uid : Int)
    (env : ExchangeEnv) (nameRes guidRes : Option String)
    (hfresh : GetClientPtr st uid = none)
    (hfail : env.sendLenOk = false ∨ env.sendKeyOk = false
      ∨ env.recvLenOk = false ∨ env.recvKeyOk = false) :
    (ExchangePublicKeys
        (AddToClientList st { clientUID := uid, socket := conn, alive := true })
        uid env).1 = false
    ∧ (GetClientPtr (OnTCPConnection st conn uid env nameRes guidRes).state uid).map
        Client.publicKeySet = some false
    ∧ (GetClientPtr (OnTCPConnection st conn uid env nameRes guidRes).state uid).map
        Client.alive = some true
    ∧ (GetClientPtr (OnTCPConnection st conn uid env nameRes guidRes).state uid).map
        Client.socket = some conn
    ∧ (OnTCPConnection st conn uid env nameRes guidRes).receiveLoopSpawned = true
    ∧ (OnTCPConnection st conn uid env nameRes guidRes).keepAliveLoopSpawned = true
    ∧ (OnTCPConnection st conn uid env nameRes guidRes).socketClosed = false := by
  have h1 := AddToClientList_fresh st { clientUID := uid, socket := conn, alive := true }
    hfresh
  have h2 : GetClientPtr
      (⟨(uid, { clientUID := uid, socket := conn, alive := true }) :: st.clientList⟩ :
        ServerState) uid =
      some { clientUID := uid, socket := conn, alive := true } := by
    simp [GetClientPtr, lookupClient]
  have hE := ExchangePublicKeys_fail
    (⟨(uid, { clientUID := uid, socket := conn, alive := true }) :: st.clientList⟩ :
      ServerState) uid { clientUID := uid, socket := conn, alive := true } env h2 hfail
  have hlook := OnTCPConnection_fail_lookup st conn uid env nameRes guidRes hfresh hfail
  refine ⟨by rw [h1, hE], ?_, ?_, ?_, rfl, rfl, rfl⟩ <;> rw [hlook] <;> rfl

/-- C1 counterexample to the claim as stated: the peer sends only the
public-key length and closes (the fourth exchange step fails); yet the
session is still present in the registry and both per-session loops are
spawned, with the socket left open. -/
theorem C1_handshake_abort_cex :
    (GetClientPtr (OnTCPConnection ⟨[]⟩ 7 1 ⟨true, true, true, false⟩ none none).state
        1).isSome = true
    ∧ (OnTCPConnection ⟨[]⟩ 7 1 ⟨true, true, true, false⟩ none none).receiveLoopSpawned
        = true
    ∧ (OnTCPConnection ⟨[]⟩ 7 1 ⟨true, true, true, false⟩ none none).keepAliveLoopSpawned
        = true
    ∧ (OnTCPConnection ⟨[]⟩ 7 1 ⟨true, true, true, false⟩ none none).socketClosed
        = false := by
  refine ⟨?_, rfl, rfl, rfl⟩
  decide

/-- C1 witness: the amended theorem at the empty registry with the
peer closing after sending only the key length. -/
theorem C1_handshake_failure_not_terminal_witness :
    (ExchangePublicKeys
        (AddToClientList ⟨[]⟩ { clientUID := 1, socket := 7, alive := true })
        1 ⟨true, true, true, false⟩).1 = false
    ∧ (GetClientPtr (OnTCPConnection ⟨[]⟩ 7 1 ⟨true, true, true, false⟩ none none).state
        1).map Client.publicKeySet = some false
    ∧ (GetClientPtr (OnTCPConnection ⟨[]⟩ 7 1 ⟨true, true, true, false⟩ none none).state
        1).map Client.alive = some true
    ∧ (GetClientPtr (OnTCPConnection ⟨[]⟩ 7 1 ⟨true, true, true, false⟩ none none).state
        1).map Client.socket = some 7
    ∧ (OnTCPConnection ⟨[]⟩ 7 1 ⟨true, true, true, false⟩ none none).receiveLoopSpawned
        = true
    ∧ (OnTCPConnection ⟨[]⟩ 7 1 ⟨true, true, true, false⟩ none none).keepAliveLoopSpawned
        = true
    ∧ (OnTCPConnection ⟨[]⟩ 7 1 ⟨true, true, true, false⟩ none none).socketClosed
        = false :=
  C1_handshake_failure_not_terminal ⟨[]⟩ 7 1 ⟨true, true, true, false⟩ none none rfl
    (Or.inr (Or.inr (Or.inr rfl)))

/-! # Claim C3 -/

/-- C3. On every inbound path that decrypts — the TCP receive loop,
the keep-alive echo handler, identity resolution, and response
waiting — a buffer failing the decrypt validity check is discarded:
the outcome equals the receive-failure outcome of the same code, the
result never depends on the deserializer (so the buffer is never
deserialized), and every path is a total function returning normally.
The receive-loop conjuncts are stated with no probe outstanding during
the receive, since an outstanding probe routes the frame to
OnKeepAliveEcho before the gate. -/
theorem C3_decrypt_validity_gate :
    (∀ (c : Client) (d1 d2 : List Nat → ClientRequest) (dec1 dec2 : List Nat),
      TCPReceiveIteration c true false false d1 dec1 =
        TCPReceiveIteration c false false true d2 dec2)
    ∧ (∀ (c : Client) (d : List Nat → ClientRequest) (dec : List Nat)
        (r : ClientRequest),
        TCPReceiveIteration c true false false d dec ≠ .performed r)
    ∧ (∀ (st : ServerState) (cuid : Int) (d1 d2 : List Nat → Packet)
        (dec1 dec2 : List Nat),
        OnKeepAliveEcho st cuid false d1 dec1 = OnKeepAliveEcho st cuid false d2 dec2)
    ∧ (∀ (st : ServerState) (cuid : Int) (d : List Nat → Packet) (dec : List Nat),
        GetClientPtr (OnKeepAliveEcho st cuid false d dec) cuid =
          (GetClientPtr st cuid).map fun c =>
            { c with keepAliveSuccess := false, keepAliveProcess := false })
    ∧ (∀ (c : Client) (t t2 : List Nat → String) (dec dec2 : List Nat) (g : Bool),
        GetClientMachineGUID c true false t dec = GetClientMachineGUID c false g t2 dec2
        ∧ GetClientMachineGUID c true false t dec = (false, c))
    ∧ (∀ (c : Client) (t t2 : List Nat → String) (dec dec2 : List Nat) (g : Bool),
        GetClientComputerName c true false t dec = GetClientComputerName c false g t2 dec2
        ∧ GetClientComputerName c true false t dec = (false, c))
    ∧ (∀ (c : Client) (d1 d2 : List Nat → ClientResponse) (dec1 dec2 : List Nat),
        WaitForClientResponse c false true false d1 dec1 =
          WaitForClientResponse c false false true d2 dec2
        ∧ (WaitForClientResponse c false true false d1 dec1).1 = ⟨.kNone⟩) := by
  refine ⟨?_, ?_, ?_, ?_, ?_, ?_, ?_⟩
  · intro c d1 d2 dec1 dec2
    unfold TCPReceiveIteration
    cases h : (c.expectingResponse || c.keepAliveProcess) <;> simp [h]
  · intro c d dec r
    unfold TCPReceiveIteration
    cases h : (c.expectingResponse || c.keepAliveProcess) <;> simp [h]
  · intro st cuid d1 d2 dec1 dec2
    unfold OnKeepAliveEcho
    cases h : GetClientPtr st cuid <;> simp [h]
  · intro st cuid d dec
    unfold OnKeepAliveEcho
    cases h : GetClientPtr st cuid <;> simp [h, GetClientPtr_update]
  · intro c t t2 dec dec2 g
    constructor <;> simp [GetClientMachineGUID]
  · intro c t t2 dec dec2 g
    constructor <;> simp [GetClientComputerName]
  · intro c d1 d2 dec1 dec2
    constructor <;> simp [WaitForClientResponse]

/-! # Claim C4 -/

/-- C4, the code bug. A request with valid unset does return false, and
an unmatched action leaves the registry, the transmissions, the saved
state and the sockets untouched; but on every valid request —
unmatched or handled — control falls off the end of the bool-returning
PerformRequest with no return statement, so the function never reports
whether the action was carried out. Evaluated at the concrete failing
input: a valid kKeepAlive request dispatched on the UDP server. -/
theorem C4_perform_request_exit :
    (∀ (st : ServerState) (req : ClientRequest) (onTCP : Bool) (cuid : Int),
      req.valid = false →
        PerformRequest st req onTCP cuid = ⟨.ret false, st, [], false, false⟩)
    ∧ PerformRequest ⟨[]⟩ ⟨true, .kKeepAlive⟩ false (-1) =
        ⟨.fellOff, ⟨[]⟩, [], false, false⟩
    ∧ (∀ (st : ServerState) (onTCP : Bool) (cuid : Int),
        PerformRequest st ⟨true, .kKeepAlive⟩ onTCP cuid =
          ⟨.fellOff, st, [], false, false⟩) := by
  refine ⟨?_, by decide, ?_⟩
  · intro st req onTCP cuid h
    unfold PerformRequest
    simp [h]
  · intro st onTCP cuid
    unfold PerformRequest
    simp

/-- C4 witness: the invalid-flag clause applied at a concrete request,
and the unmatched-action clause at a concrete registry. -/
theorem C4_perform_request_exit_witness :
    PerformRequest ⟨[]⟩ ⟨false, .kPingClient⟩ true 0 = ⟨.ret false, ⟨[]⟩, [], false, false⟩
    ∧ PerformRequest ⟨[]⟩ ⟨true, .kKeepAlive⟩ true 3 = ⟨.fellOff, ⟨[]⟩, [], false, false⟩ :=
  ⟨C4_perform_request_exit.1 ⟨[]⟩ ⟨false, .kPingClient⟩ true 0 rfl,
   C4_perform_request_exit.2.2 ⟨[]⟩ true 3⟩

/-! # Claim C5 -/

/-- C5, amended. For the four key/identity/payment actions on the TCP
server with an existing session, only kRequestPrivateEncryptionKey
transmits a reply — encrypted under the peer public key; the
kRequestPublicEncryptionKey, kRequestRansomBTCAddress and
kValidateRansomPayment cases test the connection type and transmit
nothing; on the UDP server all four transmit nothing. -/
theorem C5_key_request_replies (st : ServerState) (cuid : Int) (c : Client)
    (hc : GetClientPtr st cuid = some c) :
    (PerformRequest st ⟨true, .kRequestPrivateEncryptionKey⟩ true cuid).transmits =
      [⟨true, true, false⟩]
    ∧ (PerformRequest st ⟨true, .kRequestPublicEncryptionKey⟩ true cuid).transmits = []
    ∧ (PerformRequest st ⟨true, .kRequestRansomBTCAddress⟩ true cuid).transmits = []
    ∧ (PerformRequest st ⟨true, .kValidateRansomPayment⟩ true cuid).transmits = []
    ∧ (PerformRequest st ⟨true, .kRequestPrivateEncryptionKey⟩ false cuid).transmits = []
    ∧ (PerformRequest st ⟨true, .kRequestPublicEncryptionKey⟩ false cuid).transmits = []
    ∧ (PerformRequest st ⟨true, .kRequestRansomBTCAddress⟩ false cuid).transmits = []
    ∧ (PerformRequest st ⟨true, .kValidateRansomPayment⟩ false cuid).transmits = [] := by
  refine ⟨?_, ?_, ?_, ?_, ?_, ?_, ?_, ?_⟩ <;>
    · unfold PerformRequest
      simp [hc]

/-- A concrete client with an exchanged public key, for evaluating the
dispatcher. -/
def keyedClient : Client :=
  { clientUID := 2, socket := 9, alive := true, publicKeySet := true }

/-- A registry holding only keyedClient. -/
def keyedRegistry : ServerState := ⟨[(2, keyedClient)]⟩

/-- C5 counterexample to the claim as stated: a kRequestPublicEncryptionKey
request on the TCP server for a session that exists in the registry
transmits nothing — no encrypted reply is sent back to the peer. -/
theorem C5_key_request_reply_cex :
    (GetClientPtr keyedRegistry 2).isSome = true
    ∧ (PerformRequest keyedRegistry ⟨true, .kRequestPublicEncryptionKey⟩ true 2).transmits
        = [] := by
  constructor <;> decide

/-- C5 witness: the reply shape at the concrete one-session registry. -/
theorem C5_key_request_replies_witness :
    (PerformRequest keyedRegistry ⟨true, .kRequestPrivateEncryptionKey⟩ true 2).transmits =
      [⟨true, true, false⟩]
    ∧ (PerformRequest keyedRegistry ⟨true, .kRequestPublicEncryptionKey⟩ true 2).transmits = []
    ∧ (PerformRequest keyedRegistry ⟨true, .kRequestRansomBTCAddress⟩ true 2).transmits = []
    ∧ (PerformRequest keyedRegistry ⟨true, .kValidateRansomPayment⟩ true 2).transmits = []
    ∧ (PerformRequest keyedRegistry ⟨true, .kRequestPrivateEncryptionKey⟩ false 2).transmits = []
    ∧ (PerformRequest keyedRegistry ⟨true, .kRequestPublicEncryptionKey⟩ false 2).transmits = []
    ∧ (PerformRequest keyedRegistry ⟨true, .kRequestRansomBTCAddress⟩ false 2).transmits = []
    ∧ (PerformRequest keyedRegistry ⟨true, .kValidateRansomPayment⟩ false 2).transmits = [] :=
  C5_key_request_replies keyedRegistry 2 keyedClient rfl

/-! # Claim C6 -/

theorem recvFill_length_fuel (fuel : Nat) :
    ∀ (need : Nat) (acc : List Nat) (chunks : List (List Nat)),
      need - acc.length ≤ fuel → acc.length ≤ need →
      ∀ out rest, recvFill need acc chunks = (some out, rest) → out.length = need := by
  induction fuel with
  | zero =>
    intro need acc chunks hf hle out rest heq
    have h : ¬ acc.length < need := by omega
    rw [recvFill.eq_def, dif_neg h] at heq
    obtain ⟨h1, h2⟩ := Prod.mk.injEq .. ▸ heq
    cases h1
    omega
  | succ k ih =>
    intro need acc chunks hf hle out rest heq
    rw [recvFill.eq_def] at heq
    by_cases h : acc.length < need
    · rw [dif_pos h] at heq
      split at heq
      · exact absurd heq (by simp)
      · rename_i b t ch hr
        have hlen := recvCall_length_le (need - acc.length) chunks
        rw [hr] at hlen
        simp only [List.length_cons] at hlen
        refine ih need (acc ++ (b :: t)) ch ?_ ?_ out rest heq <;>
          simp only [List.length_append, List.length_cons] <;> omega
    · rw [dif_neg h] at heq
      obtain ⟨h1, h2⟩ := Prod.mk.injEq .. ▸ heq
      cases h1
      omega

theorem recvFill_length (need : Nat) (acc : List Nat) (chunks : List (List Nat))
    (hle : acc.length ≤ need) (out : List Nat) (rest : List (List Nat))
    (heq : recvFill need acc chunks = (some out, rest)) : out.length = need :=
  recvFill_length_fuel (need - acc.length) need acc chunks le_rfl hle out rest heq

/-- C6, amended. ReceiveData does read the 4-byte length and allocate a
buffer of exactly that size — every successful return carries a buffer
of exactly the announced length — but it performs a single payload
read rather than looping: a short delivery is zero-padded and still
reported as success (the counterexample). The loop-until-full
behavior belongs to ReceiveTCPLargeData, whose successful return is
likewise exactly the announced length, filled entirely by reads. -/
theorem C6_receive_framed :
    (∀ (chunks : List (List Nat)) (buf : List Nat) (rest : List (List Nat)),
      ReceiveData chunks = (some buf, rest) →
        buf.length = fromLE4 (padTo4 (recvCall 4 chunks).1))
    ∧ (∀ (chunks : List (List Nat)) (buf : List Nat) (rest : List (List Nat)),
        ReceiveTCPLargeData chunks = (some buf, rest) →
          buf.length = fromLE4 (padTo4 (recvCall 4 chunks).1)) := by
  constructor
  · intro chunks buf rest heq
    unfold ReceiveData at heq
    by_cases h1 : (recvCall 4 chunks).1.isEmpty
    · rw [if_pos h1] at heq
      exact absurd heq (by simp)
    · rw [if_neg h1] at heq
      by_cases h2 : (recvCall (fromLE4 (padTo4 (recvCall 4 chunks).1))
          (recvCall 4 chunks).2).1.isEmpty
      · rw [if_pos h2] at heq
        exact absurd heq (by simp)
      · rw [if_neg h2] at heq
        obtain ⟨hb, hr⟩ := Prod.mk.injEq .. ▸ heq
        have hlen := recvCall_length_le (fromLE4 (padTo4 (recvCall 4 chunks).1))
          (recvCall 4 chunks).2
        cases hb
        simp only [List.length_append, List.length_replicate]
        omega
  · intro chunks buf rest heq
    unfold ReceiveTCPLargeData at heq
    by_cases h1 : (recvCall 4 chunks).1.isEmpty
    · rw [if_pos h1] at heq
      exact absurd heq (by simp)
    · rw [if_neg h1] at heq
      exact recvFill_length _ [] _ (by simp) buf rest heq

/-- C6 counterexample to the claim as stated: a 2-byte frame whose
payload arrives split across two deliveries. ReceiveData reads only
the first delivery, zero-pads, and reports success with a buffer that
is not the transmitted payload — a partially filled buffer reported as
success. -/
theorem C6_receive_framed_cex :
    ReceiveData [[2, 0, 0, 0], [7], [8]] = (some [7, 0], [[8]])
    ∧ ([7, 0] : List Nat) ≠ [7, 8] := by
  constructor <;> decide

/-- C6 witness: the exact-size facts applied to a one-byte frame
delivered whole. -/
theorem C6_receive_framed_witness :
    ([9] : List Nat).length = fromLE4 (padTo4 (recvCall 4 [[1, 0, 0, 0], [9]]).1)
    ∧ ([9] : List Nat).length = fromLE4 (padTo4 (recvCall 4 [[1, 0, 0, 0], [9]]).1) :=
  ⟨C6_receive_framed.1 [[1, 0, 0, 0], [9]] [9] [] (by decide),
   C6_receive_framed.2 [[1, 0, 0, 0], [9]] [9] []
     (by simp [ReceiveTCPLargeData, recvFill, recvCall, padTo4, fromLE4])⟩

/-! # Claim C7 -/

/-- C7, amended. The framing round-trip on a loopback transport
returns every nonempty byte sequence of 32-bit-representable length
unchanged — in particular every sequence of length 1 and of length
65536 — but fails for the empty sequence: a zero-length frame makes
the single zero-byte payload recv return 0, which ReceiveData reports
as failure (the counterexample). -/
theorem C7_roundtrip (b : List Nat) (h0 : 0 < b.length) (h1 : b.length < 4294967296) :
    ReceiveData (sendFramed b) = (some b, []) := by
  have hne : b.isEmpty = false := by
    cases b
    · simp at h0
    · simp
  have hmod : b.length % 4294967296 = b.length := Nat.mod_eq_of_lt h1
  have hsf : sendFramed b = [toLE4 b.length, b] := by
    simp [sendFramed, hne, hmod]
  have hrc1 : recvCall 4 [toLE4 b.length, b] = (toLE4 b.length, [b]) := by
    simp [recvCall, toLE4]
  have hp : padTo4 (toLE4 b.length) = toLE4 b.length := by
    simp [padTo4, toLE4]
  have hds : fromLE4 (padTo4 (toLE4 b.length)) = b.length := by
    rw [hp]
    exact fromLE4_toLE4 b.length h1
  have hrc2 : recvCall b.length [b] = (b, []) := by
    unfold recvCall
    rw [if_neg (by omega : ¬ b.length = 0)]
    simp
  have hie : (toLE4 b.length).isEmpty = false := by simp [toLE4]
  rw [hsf]
  simp only [ReceiveData, hrc1, hds, hrc2, hie]
  simp [hne]

/-- C7 counterexample to the claim as stated: the empty byte sequence
does not round-trip — the receive side reports failure on a
zero-length frame. -/
theorem C7_roundtrip_empty_cex :
    (ReceiveData (sendFramed [])).1 = none := by
  decide

/-- C7 witness: the round-trip at a concrete one-byte sequence. -/
theorem C7_roundtrip_witness :
    ReceiveData (sendFramed [42]) = (some [42], []) :=
  C7_roundtrip [42] (by decide) (by decide)

/-! # Claim C8 -/

theorem OnTCPConnection_length (st : ServerState) (conn uid : Int)
    (env : ExchangeEnv) (n g : Option String) :
    (OnTCPConnection st conn uid env n g).state.clientList.length ≤
      st.clientList.length + 1 := by
  have hb := AddToClientList_length st { clientUID := uid, socket := conn, alive := true }
  have he := ExchangePublicKeys_state_length
    (AddToClientList st { clientUID := uid, socket := conn, alive := true }) uid env
  simp only [OnTCPConnection, applyGuidRes_length, applyNameRes_length, he]
  exact hb

/-- A registry of n distinct live sessions, for evaluating the accept
loop guard at concrete sizes. -/
def manyClients (n : Nat) : List (Int × Client) :=
  (List.range n).map fun i => ((i : Int), { clientUID := (i : Int), socket := 0, alive := true })

/-- C8, amended. The accept loop does bound the registry, but by the
hardcoded literal 200 rather than the configured maxConnections = 100
persisted as max_connections: no accept happens once the registry
holds more than 200 sessions, and each admitted accept grows the
registry by at most one, so the bound actually enforced is 201. -/
theorem C8_accept_bound (st : ServerState) (alive ok : Bool) (conn uid : Int)
    (env : ExchangeEnv) (n g : Option String) :
    (st.clientList.length > 200 →
      AcceptIteration st alive ok conn uid env n g = st)
    ∧ (AcceptIteration st alive ok conn uid env n g).clientList.length ≤
        st.clientList.length + 1 := by
  constructor
  · intro h
    unfold AcceptIteration acceptLoopAdmits
    have hn : ¬ st.clientList.length ≤ 200 := by omega
    simp [hn]
  · unfold AcceptIteration
    split_ifs with h1 h2
    · exact OnTCPConnection_length st conn uid env n g
    · omega
    · omega

/-- C8 counterexample to the claim as stated: a registry already
holding maxConnections = 100 sessions still admits an accept — the
accept loop runs OnTCPConnection and the registry grows to 101
sessions, exceeding the configured maximum. -/
theorem C8_accept_bound_cex :
    (⟨manyClients 100⟩ : ServerState).clientList.length = maxConnections
    ∧ (AcceptIteration ⟨manyClients 100⟩ true true 7 1000 ⟨true, true, true, true⟩
        none none).clientList.length = maxConnections + 1 := by
  constructor <;> decide

/-- C8 witness: the hardcoded bound applied to a registry of 201
sessions — no accept is performed — and the growth bound at that
registry. -/
theorem C8_accept_bound_witness :
    ((⟨manyClients 201⟩ : ServerState).clientList.length > 200 →
      AcceptIteration ⟨manyClients 201⟩ true true 7 1000 ⟨true, true, true, true⟩
        none none = ⟨manyClients 201⟩)
    ∧ (AcceptIteration ⟨manyClients 201⟩ true true 7 1000 ⟨true, true, true, true⟩
        none none).clientList.length ≤
        (⟨manyClients 201⟩ : ServerState).clientList.length + 1 :=
  C8_accept_bound ⟨manyClients 201⟩ true true 7 1000 ⟨true, true, true, true⟩ none none

/-! # Claim C9 -/

/-- C9. A kDisconnectClient request received by the UDP listener is
dispatched through PerformRequest on the UDP server with cuid -1; since
the request is not on TCP, the TCPClient pointer is never populated,
and the kDisconnectClient branch dereferences the null pointer when
calling Disconnect. The null-pointer branch is reachable from the
public UDP surface for every registry state. -/
theorem C9_udp_disconnect_null_deref (st : ServerState) (req : ClientRequest)
    (hv : req.valid = true) (ha : req.action = .kDisconnectClient) :
    ListenForUDPIteration st true req = some (PerformRequest st req false (-1))
    ∧ (PerformRequest st req false (-1)).exit = .nullDeref := by
  obtain ⟨v, a⟩ := req
  cases hv
  cases ha
  exact ⟨rfl, rfl⟩

/-- C9 witness: the UDP disconnect dispatch at a concrete one-session
registry. -/
theorem C9_udp_disconnect_null_deref_witness :
    ListenForUDPIteration ⟨[(1, { clientUID := 1, socket := 5, alive := true })]⟩ true
        ⟨true, .kDisconnectClient⟩ =
      some (PerformRequest ⟨[(1, { clientUID := 1, socket := 5, alive := true })]⟩
        ⟨true, .kDisconnectClient⟩ false (-1))
    ∧ (PerformRequest ⟨[(1, { clientUID := 1, socket := 5, alive := true })]⟩
        ⟨true, .kDisconnectClient⟩ false (-1)).exit = .nullDeref :=
  C9_udp_disconnect_null_deref ⟨[(1, { clientUID := 1, socket := 5, alive := true })]⟩
    ⟨true, .kDisconnectClient⟩ rfl rfl

/-! # Claim C10 -/

/-- C10, amended. ExpectingResponse is FALSE after WaitForClientResponse
only on the success path: it equals the conjunction of not-timed-out,
receive succeeded, and decrypt valid; on the timeout, receive-failure
and decrypt-failure returns the flag is left TRUE — and the receive
loop skips every inbound frame while the flag is TRUE, so those paths
leave the loop permanently skipping. -/
theorem C10_expecting_response :
    (∀ (c : Client) (t r g : Bool) (d : List Nat → ClientResponse) (dec : List Nat),
      (WaitForClientResponse c t r g d dec).2.expectingResponse = !(!t && r && g))
    ∧ (∀ (c : Client) (rec ka g : Bool) (d : List Nat → ClientRequest) (dec : List Nat),
        c.expectingResponse = true →
          TCPReceiveIteration c rec ka g d dec = .skipped) := by
  constructor
  · intro c t r g d dec
    unfold WaitForClientResponse
    cases t <;> cases r <;> cases g <;> simp
  · intro c rec ka g d dec h
    unfold TCPReceiveIteration
    simp [h]

/-- C10 counterexample to the claim as stated: on the timeout return
path the flag is TRUE after the call. -/
theorem C10_expecting_response_cex :
    (WaitForClientResponse { clientUID := 1, socket := 2 } true false false
        (fun _ => ⟨.kNone⟩) []).2.expectingResponse = true := by
  decide

/-- C10 witness: the flag equation on the receive-failure path and the
skip behavior at a concrete client. -/
theorem C10_expecting_response_witness :
    (WaitForClientResponse { clientUID := 1, socket := 2 } false false true
        (fun _ => ⟨.kNone⟩) []).2.expectingResponse = !(!false && false && true)
    ∧ TCPReceiveIteration { clientUID := 1, socket := 2, expectingResponse := true }
        true false true (fun _ => ⟨true, .kNone⟩) [] = .skipped :=
  ⟨C10_expecting_response.1 { clientUID := 1, socket := 2 } false false true
      (fun _ => ⟨.kNone⟩) [],
   C10_expecting_response.2 { clientUID := 1, socket := 2, expectingResponse := true }
      true false true (fun _ => ⟨true, .kNone⟩) [] rfl⟩

end React
